import Mathlib

/-
Verification development for the Tilengine sprite core.

Shallow embedding of the sprite state manager, the clipping and rectangle
engine, the rotation resampler's geometry and state effect (Sprite.c), and
the tileset attribute loader's priority-property parsing (LoadTileset.c).

Integer C variables are modelled as Int; C truncating integer division is
Int.tdiv; the arithmetic right shift by one used by the source is floor
division by two (Int.fdiv).  Float scale factors are modelled as rationals
with truncation toward zero, exact for the concrete factors used in the
theorems below.  The real-valued rotation geometry (Math2D) is modelled
over the reals; see the doc comments of the definitions involved.
-/

namespace Tilengine

/-- A rectangle given by its two corners, as in rect_t (x1,y1)-(x2,y2). -/
structure Rect where
  x1 : Int
  y1 : Int
  x2 : Int
  y2 : Int
deriving DecidableEq

/-- One entry of the spriteset frame table: width, height and data offset. -/
structure SpriteInfo where
  w : Int
  h : Int
  offset : Int
deriving DecidableEq

/-- Spriteset collaborator: validity (CheckBaseObject), optional palette,
bitmap pitch, and the frame table (spriteset->data). -/
structure Spriteset where
  valid : Bool
  palette : Option Nat
  pitch : Int
  frames : List SpriteInfo
deriving DecidableEq

/-- Palette collaborator: validity for CheckBaseObject and an identity. -/
structure PaletteObj where
  valid : Bool
  pid : Nat
deriving DecidableEq

/-- A bitmap handle: only the dimensions matter to the sprite core claims. -/
structure Bitmap where
  width : Int
  height : Int
deriving DecidableEq

/-- Sprite drawing mode: MODE_NORMAL, MODE_SCALING, MODE_TRANSFORM. -/
inductive Mode where
  | normal
  | scaling
  | transform
deriving DecidableEq

/-- True exactly for MODE_SCALING. -/
def Mode.isScaling : Mode → Bool
  | .scaling => true
  | _ => false

/-- The blitter selected by GetBlitter (32, true, scaling, blend). -/
structure Blitter where
  bpp : Int
  useKey : Bool
  scalingOn : Bool
  blendOn : Bool
deriving DecidableEq

/-- A scale factor as an exact fraction with positive denominator.
Every C float value is such a fraction, so the float-by-int product and
its truncating cast are modelled exactly. -/
structure ScaleF where
  num : Int
  den : Int
deriving DecidableEq

/-- The scale factor 1.0. -/
def ScaleF.one : ScaleF := ⟨1, 1⟩

/-- The per-sprite record (struct Sprite), with the fields Sprite.c uses. -/
structure Sprite where
  spriteset : Option Spriteset
  palette : Option Nat
  pitch : Int
  num : Int
  flags : Int
  x : Int
  y : Int
  index : Int
  info : SpriteInfo
  pixels : Int
  sx : ScaleF
  sy : ScaleF
  mode : Mode
  blend : Option Nat
  draw : Mode
  blitter : Blitter
  do_collision : Bool
  collision : Bool
  rotation_bitmap : Option Bitmap
  srcrect : Rect
  dstrect : Rect
  dx : Int
  dy : Int
  ok : Bool
deriving DecidableEq

/-- Modelled from the spec: fixed-point values use a binary-point shift
(Fixed.h is not part of this distribution); int2fix is multiplication by
2^16.  The claims below do not depend on the shift width. -/
def int2fix (n : Int) : Int := n * 65536

/-- The C computation (int)(n * factor): the product of an integer and
a scale factor, truncated toward zero, computed exactly on the
fraction. -/
def scaleTrunc (n : Int) (f : ScaleF) : Int := Int.tdiv (n * f.num) f.den

/-- Vertical clip of the top edge (Sprite.c lines 682-686): if the
destination top is above the screen, move it to 0 and shift the source
top by the same signed amount. -/
def clipY1 (src dst : Rect) : Rect × Rect :=
  if dst.y1 < 0 then ({src with y1 := src.y1 - dst.y1}, {dst with y1 := 0})
  else (src, dst)

/-- Vertical clip of the bottom edge (Sprite.c lines 687-691). -/
def clipY2 (fbh : Int) (src dst : Rect) : Rect × Rect :=
  if dst.y2 > fbh then
    ({src with y2 := src.y2 - (dst.y2 - fbh)}, {dst with y2 := fbh})
  else (src, dst)

/-- Horizontal clip of the left edge (Sprite.c lines 694-698). -/
def clipX1 (src dst : Rect) : Rect × Rect :=
  if dst.x1 < 0 then ({src with x1 := src.x1 - dst.x1}, {dst with x1 := 0})
  else (src, dst)

/-- Horizontal clip of the right edge (Sprite.c lines 699-703). -/
def clipX2 (fbw : Int) (src dst : Rect) : Rect × Rect :=
  if dst.x2 > fbw then
    ({src with x2 := src.x2 - (dst.x2 - fbw)}, {dst with x2 := fbw})
  else (src, dst)

/-- NORMAL-mode clipping of the four destination edges against the
framebuffer, mirroring each clipped amount onto the source rectangle,
in the order the source performs it (vertical, then horizontal). -/
def clipNormal (fbw fbh : Int) (src dst : Rect) : Rect × Rect :=
  let p1 := clipY1 src dst
  let p2 := clipY2 fbh p1.1 p1.2
  let p3 := clipX1 p2.1 p2.2
  clipX2 fbw p3.1 p3.2

/-- The NORMAL-mode branch of UpdateSprite (Sprite.c lines 670-704):
source rectangle is the full picture, destination rectangle is the
position plus the picture dimensions, then edge clipping. -/
def updateNormal (fbw fbh : Int) (s : Sprite) : Sprite :=
  let cl := clipNormal fbw fbh
    ⟨0, 0, s.info.w, s.info.h⟩
    ⟨s.x, s.y, s.x + s.info.w, s.y + s.info.h⟩
  {s with srcrect := cl.1, dstrect := cl.2}

/-- The SCALING-mode branch of UpdateSprite (Sprite.c lines 707-758).
The destination is the scaled size centered by half the size delta, the
source rectangle is converted to fixed point, and the per-axis steps are
the truncating divisions srcw/dstw and srch/dsth.  The source performs
these divisions unconditionally; the model returns none exactly when a
zero destination span would make the division a division by zero. -/
def updateScaling (fbw fbh : Int) (s : Sprite) : Option Sprite :=
  let w := scaleTrunc s.info.w s.sx
  let h := scaleTrunc s.info.h s.sy
  let dst : Rect :=
    ⟨s.x + Int.fdiv (s.info.w - w) 2, s.y + Int.fdiv (s.info.h - h) 2,
     s.x + Int.fdiv (s.info.w - w) 2 + w, s.y + Int.fdiv (s.info.h - h) 2 + h⟩
  let src : Rect := ⟨int2fix 0, int2fix 0, int2fix s.info.w, int2fix s.info.h⟩
  let srcw := src.x2 - src.x1
  let srch := src.y2 - src.y1
  let dstw := dst.x2 - dst.x1
  let dsth := dst.y2 - dst.y1
  if dstw = 0 ∨ dsth = 0 then none
  else
    let ddx := Int.tdiv srcw dstw
    let ddy := Int.tdiv srch dsth
    let q1 := if dst.y1 < 0 then
        ({src with y1 := src.y1 - dst.y1 * ddy}, {dst with y1 := 0})
      else (src, dst)
    let q2 := if q1.2.y2 > fbh then
        ({q1.1 with y2 := q1.1.y2 - (q1.2.y2 - fbh) * ddy}, {q1.2 with y2 := fbh})
      else q1
    let q3 := if q2.2.x1 < 0 then
        ({q2.1 with x1 := q2.1.x1 - q2.2.x1 * ddx}, {q2.2 with x1 := 0})
      else q2
    let q4 := if q3.2.x2 > fbw then
        ({q3.1 with x2 := q3.1.x2 - (q3.2.x2 - fbw) * ddx}, {q3.2 with x2 := fbw})
      else q3
    some {s with srcrect := q4.1, dstrect := q4.2, dx := ddx, dy := ddy}

/-- UpdateSprite (Sprite.c lines 653-767): returns immediately when the
sprite is not ok; otherwise resets the source rectangle to the picture
extent and recomputes per mode.  In TRANSFORM mode neither branch fires,
so only the source rectangle reset remains. -/
def updateSprite (fbw fbh : Int) (s : Sprite) : Option Sprite :=
  if s.ok = false then some s
  else
    match s.mode with
    | .normal => some (updateNormal fbw fbh s)
    | .scaling => updateScaling fbw fbh s
    | .transform => some {s with srcrect := ⟨0, 0, s.info.w, s.info.h⟩}

/-- SelectBlitter (Sprite.c lines 769-775). -/
def selectBlitter (s : Sprite) : Sprite :=
  {s with blitter := ⟨32, true, s.mode.isScaling, s.blend.isSome⟩}

/-- Modelled from the spec: blend-table lookup, mode enum to table
pointer or null for no blending (SelectBlendTable is external). -/
def selectBlendTable (m : Nat) : Option Nat :=
  if m = 0 then none else some m

/-- TLN_SetSpritePicture after the index check (Sprite.c lines 181-201):
requires a valid spriteset, looks up the frame, updates the pixel
pointer, runs UpdateSprite.  Frame lookup performs no bounds check in
the source; out-of-table entries read a default frame in the model. -/
def setSpritePictureAux (fbw fbh : Int) (entry : Nat) (s : Sprite) :
    Option (Bool × Sprite) :=
  match s.spriteset with
  | none => some (false, s)
  | some ss =>
    if ss.valid = false then some (false, s)
    else
      let info := ss.frames.getD entry ⟨0, 0, 0⟩
      (updateSprite fbw fbh
        {s with index := (entry : Int), info := info, pixels := info.offset}).map
        (fun s2 => (true, s2))

/-- TLN_SetSpriteSet after the index check (Sprite.c lines 79-99):
assigns the spriteset and pitch, adopts the spriteset palette whenever
the spriteset has one, recomputes ok, stores the index, and re-selects
picture 0. -/
def setSpriteSetAux (fbw fbh : Int) (n : Nat) (ss : Spriteset) (s : Sprite) :
    Option (Bool × Sprite) :=
  if ss.valid = false then some (false, s)
  else
    let s1 := {s with spriteset := some ss, pitch := ss.pitch}
    let s2 := match ss.palette with
              | some p => {s1 with palette := some p}
              | none => s1
    let s3 := {s2 with ok := s2.spriteset.isSome && s2.palette.isSome, num := (n : Int)}
    setSpritePictureAux fbw fbh 0 s3

/-- TLN_SetSpriteFlags after the index check (Sprite.c lines 111-122). -/
def setSpriteFlagsAux (f : Int) (s : Sprite) : Option (Bool × Sprite) :=
  some (true, {s with flags := f})

/-- TLN_SetSpritePosition after the index check (Sprite.c lines 144-160):
stores the position and runs UpdateSprite. -/
def setSpritePositionAux (fbw fbh px py : Int) (s : Sprite) :
    Option (Bool × Sprite) :=
  (updateSprite fbw fbh {s with x := px, y := py}).map (fun s1 => (true, s1))

/-- TLN_SetSpritePalette after the index check (Sprite.c lines 220-237):
requires a valid palette, overrides the sprite palette, recomputes ok. -/
def setSpritePaletteAux (p : PaletteObj) (s : Sprite) : Option (Bool × Sprite) :=
  if p.valid = false then some (false, s)
  else
    let s1 := {s with palette := some p.pid}
    some (true, {s1 with ok := s1.spriteset.isSome && s1.palette.isSome})

/-- TLN_SetSpriteBlendMode after the index check (Sprite.c lines 280-295). -/
def setSpriteBlendModeAux (m : Nat) (s : Sprite) : Option (Bool × Sprite) :=
  some (true, selectBlitter {s with blend := selectBlendTable m})

/-- TLN_SetSpriteScaling after the index check (Sprite.c lines 320-337):
stores the factors, switches to SCALING, recomputes, re-selects the
blitter.  No validation of the factors is performed by the source. -/
def setSpriteScalingAux (fbw fbh : Int) (sxq syq : ScaleF) (s : Sprite) :
    Option (Bool × Sprite) :=
  (updateSprite fbw fbh
    {s with sx := sxq, sy := syq, mode := Mode.scaling, draw := Mode.scaling}).map
    (fun s2 => (true, selectBlitter s2))

/-- TLN_ResetSpriteScaling after the index check (Sprite.c lines 349-367). -/
def resetSpriteScalingAux (fbw fbh : Int) (s : Sprite) : Option (Bool × Sprite) :=
  (updateSprite fbw fbh
    {s with sx := ScaleF.one, sy := ScaleF.one,
            mode := Mode.normal, draw := Mode.normal}).map
    (fun s2 => (true, selectBlitter s2))

/-- State effect of TLN_SetSpriteRotation after the index check
(Sprite.c lines 413-506), with the computed bounding rectangle and the
allocation outcome taken as arguments (the geometry itself is modelled
separately over the reals).  The source first destroys the previous
rotated bitmap, then overwrites dstrect with the bounding rectangle,
then allocates.  Vector2DSet (Sprite.c line 383, called at lines
473-474) divides by the picture width and height unconditionally, so a
zero dimension is a division by zero (modelled as none) whatever the
allocation outcome.  The allocation result is never checked: on failure
with positive dimensions the copy loop writes through the null bitmap
(none); only for negative (degenerate) dimensions is the loop empty and
the sprite left in TRANSFORM mode with a null rotated bitmap. -/
def setSpriteRotationEff (allocOk : Bool) (rect : Rect) (s : Sprite) :
    Option (Bool × Sprite) :=
  let s1 := {s with rotation_bitmap := none, dstrect := rect}
  if s.info.w = 0 ∨ s.info.h = 0 then none
  else if allocOk then
    some (true, {s1 with
      rotation_bitmap := some ⟨rect.x2 - rect.x1 + 1, rect.y2 - rect.y1 + 1⟩,
      mode := Mode.transform, draw := Mode.transform})
  else
    if 0 < s.info.w ∧ 0 < s.info.h then none
    else some (true, {s1 with mode := Mode.transform, draw := Mode.transform})

/-- TLN_ResetSpriteRotation after the index check (Sprite.c lines 508-525):
destroys the rotated bitmap and restores NORMAL mode, with no rectangle
recomputation. -/
def resetSpriteRotationAux (s : Sprite) : Option (Bool × Sprite) :=
  some (true, {s with rotation_bitmap := none, mode := Mode.normal, draw := Mode.normal})

/-- TLN_EnableSpriteCollision after the index check (Sprite.c lines 589-599). -/
def enableSpriteCollisionAux (b : Bool) (s : Sprite) : Option (Bool × Sprite) :=
  some (true, {s with do_collision := b})

/-- TLN_DisableSprite after the index check (Sprite.c lines 639-650):
clears ok and nothing else. -/
def disableSpriteAux (s : Sprite) : Option (Bool × Sprite) :=
  some (true, {s with ok := false})

/-- The engine: framebuffer dimensions and the sprite slot array; the
configured capacity numsprites is the array length. -/
structure Engine where
  fbWidth : Int
  fbHeight : Int
  sprites : List Sprite
deriving DecidableEq

/-- A sprite slot as zero-initialized at engine creation.  Modelled from
the spec: slots exist for the engine lifetime and start unconfigured
(the engine setup code is not part of this distribution). -/
def initSprite : Sprite :=
  { spriteset := none, palette := none, pitch := 0, num := 0, flags := 0,
    x := 0, y := 0, index := 0, info := ⟨0, 0, 0⟩, pixels := 0,
    sx := ⟨0, 1⟩, sy := ⟨0, 1⟩, mode := Mode.normal, blend := none, draw := Mode.normal,
    blitter := ⟨0, false, false, false⟩, do_collision := false,
    collision := false, rotation_bitmap := none,
    srcrect := ⟨0, 0, 0, 0⟩, dstrect := ⟨0, 0, 0, 0⟩,
    dx := 0, dy := 0, ok := false }

/-- The public per-sprite operations of the sprite state manager. -/
inductive SpriteOp where
  | setSpriteSet (n : Nat) (ss : Spriteset)
  | setFlags (n : Nat) (f : Int)
  | setPosition (n : Nat) (px py : Int)
  | setPicture (n : Nat) (entry : Nat)
  | setPalette (n : Nat) (p : PaletteObj)
  | setBlendMode (n : Nat) (m : Nat)
  | setScaling (n : Nat) (sxq syq : ScaleF)
  | resetScaling (n : Nat)
  | setRotation (n : Nat) (allocOk : Bool) (rect : Rect)
  | resetRotation (n : Nat)
  | enableCollision (n : Nat) (b : Bool)
  | disable (n : Nat)
  | configSprite (n : Nat) (ss : Spriteset) (f : Int)

/-- Applies a per-sprite transformation at a checked index.  The source
guard rejects exactly nsprite >= numsprites (returning false with no
state change); negative indices are a separate defect treated by
spriteIndexRejected below, so machine indices are naturals. -/
def applySpriteOp (e : Engine) (n : Nat) (f : Sprite → Option (Bool × Sprite)) :
    Option (Bool × Engine) :=
  if h : n < e.sprites.length then
    match f (e.sprites.get ⟨n, h⟩) with
    | none => none
    | some (b, s1) => some (b, {e with sprites := e.sprites.set n s1})
  else some (false, e)

/-- One public operation against the engine; none marks executions the
source makes undefined (division by zero, null-bitmap write). -/
def stepOp (e : Engine) (op : SpriteOp) : Option (Bool × Engine) :=
  match op with
  | .setSpriteSet n ss => applySpriteOp e n (setSpriteSetAux e.fbWidth e.fbHeight n ss)
  | .setFlags n f => applySpriteOp e n (setSpriteFlagsAux f)
  | .setPosition n px py => applySpriteOp e n (setSpritePositionAux e.fbWidth e.fbHeight px py)
  | .setPicture n entry => applySpriteOp e n (setSpritePictureAux e.fbWidth e.fbHeight entry)
  | .setPalette n p => applySpriteOp e n (setSpritePaletteAux p)
  | .setBlendMode n m => applySpriteOp e n (setSpriteBlendModeAux m)
  | .setScaling n sxq syq => applySpriteOp e n (setSpriteScalingAux e.fbWidth e.fbHeight sxq syq)
  | .resetScaling n => applySpriteOp e n (resetSpriteScalingAux e.fbWidth e.fbHeight)
  | .setRotation n allocOk rect => applySpriteOp e n (setSpriteRotationEff allocOk rect)
  | .resetRotation n => applySpriteOp e n resetSpriteRotationAux
  | .enableCollision n b => applySpriteOp e n (enableSpriteCollisionAux b)
  | .disable n => applySpriteOp e n disableSpriteAux
  | .configSprite n ss f =>
      match applySpriteOp e n (setSpriteSetAux e.fbWidth e.fbHeight n ss) with
      | none => none
      | some (b, e1) =>
          if b then applySpriteOp e1 n (setSpriteFlagsAux f)
          else some (false, e1)

/-- Runs a sequence of public operations, discarding return values. -/
def runOps (e : Engine) (ops : List SpriteOp) : Option Engine :=
  match ops with
  | [] => some e
  | op :: rest =>
      match stepOp e op with
      | none => none
      | some (_, e1) => runOps e1 rest

/-- When a sprite reports ok, both its spriteset and its palette are
assigned. -/
def okImpliesRefs (s : Sprite) : Prop :=
  s.ok = true → s.spriteset.isSome = true ∧ s.palette.isSome = true

/-- The ok flag never outruns the assigned references, on any slot. -/
def engineInv (e : Engine) : Prop := ∀ s ∈ e.sprites, okImpliesRefs s

/-- The index guard every per-sprite operation uses (Sprite.c): the call
is rejected, with TLN_ERR_IDX_SPRITE, exactly when nsprite >= numsprites. -/
def spriteIndexRejected (nsprite numsprites : Int) : Bool :=
  numsprites ≤ nsprite

/-- The index bound the specification demands: 0 <= nsprite < numsprites. -/
def spriteIndexValid (nsprite numsprites : Int) : Prop :=
  0 ≤ nsprite ∧ nsprite < numsprites

/-- A per-sprite operation preserves the ok-implies-references guard. -/
def presOk (f : Sprite → Option (Bool × Sprite)) : Prop :=
  ∀ s b s1, f s = some (b, s1) → okImpliesRefs s → okImpliesRefs s1

/-- ASCII lower-casing of one character code. -/
def lowerCode (c : Char) : Nat :=
  if 65 ≤ c.toNat ∧ c.toNat ≤ 90 then c.toNat + 32 else c.toNat

/-- Case-insensitive string equality, the effect of strcasecmp == 0. -/
def strcasecmpEq (a b : String) : Bool :=
  a.data.map lowerCode == b.data.map lowerCode

/-- The property selector of the tileset loader (LoadTileset.c lines 34-40). -/
inductive Property where
  | PROPERTY_NONE
  | PROPERTY_TYPE
  | PROPERTY_PRIORITY
deriving DecidableEq

/-- Per-tile attributes stored by the tileset loader. -/
structure TLN_TileAttributes where
  type : Int
  priority : Bool
deriving DecidableEq

/-- The name-attribute branch of the property handler
(LoadTileset.c lines 111-119). -/
def propertyFromName (szValue : String) : Property :=
  if strcasecmpEq szValue "type" then Property.PROPERTY_TYPE
  else if strcasecmpEq szValue "priority" then Property.PROPERTY_PRIORITY
  else Property.PROPERTY_NONE

/-- The value parsed for a priority property (LoadTileset.c lines
126-129): the branch taken when the value equals "true" assigns true,
and the branch taken otherwise also assigns true. -/
def priorityFromValue (szValue : String) : Bool :=
  if strcasecmpEq szValue "true" then true else true

/-- The stored-attribute effect of a priority-property value event
(LoadTileset.c lines 124-130), updating the attribute table at the
current tile id with both branches written as the source writes them. -/
def applyPriorityValue (tile_id : Nat) (szValue : String)
    (attrs : List TLN_TileAttributes) : List TLN_TileAttributes :=
  if strcasecmpEq szValue "true" then
    attrs.set tile_id {attrs.getD tile_id ⟨0, false⟩ with priority := true}
  else
    attrs.set tile_id {attrs.getD tile_id ⟨0, false⟩ with priority := true}

/-- Truncation toward zero of a real, the behaviour of the C cast and of
the integral part taken by fmod. -/
noncomputable def realTrunc (r : ℝ) : ℤ :=
  if 0 ≤ r then ⌊r⌋ else -⌊-r⌋

/-- The C library fmod: a - b * trunc(a / b). -/
noncomputable def fmodReal (a b : ℝ) : ℝ :=
  a - b * (realTrunc (a / b) : ℝ)

/-- Modelled from the spec (§4.3 step 3): plane rotation by an angle
given in degrees.  The Math2D sources (Matrix3, Point2D) are not part
of this distribution. -/
noncomputable def rotatePoint (angle : ℝ) (p : ℝ × ℝ) : ℝ × ℝ :=
  (p.1 * Real.cos (angle * Real.pi / 180) - p.2 * Real.sin (angle * Real.pi / 180),
   p.1 * Real.sin (angle * Real.pi / 180) + p.2 * Real.cos (angle * Real.pi / 180))

/-- Modelled from the spec (§4.3 steps 3-4): the composed transform of
one corner - translate the rotation anchor (cx,cy) to the origin,
rotate by the angle, translate back - followed by rounding each
coordinate to the nearest integer (roundf). -/
noncomputable def transformCorner (angle : ℝ) (cx cy : Int) (p : Int × Int) :
    Int × Int :=
  let v : ℝ × ℝ := ((p.1 : ℝ) - (cx : ℝ), (p.2 : ℝ) - (cy : ℝ))
  let r := rotatePoint angle v
  (round (r.1 + (cx : ℝ)), round (r.2 + (cy : ℝ)))

/-- Seed of the bounding-rectangle fold (Sprite.c lines 447-449). -/
def boundSeed (p : Int × Int) : Rect := ⟨p.1, p.2, p.1, p.2⟩

/-- One step of the bounding-rectangle fold (Sprite.c lines 450-461). -/
def boundAdd (r : Rect) (p : Int × Int) : Rect :=
  ⟨min r.x1 p.1, min r.y1 p.2, max r.x2 p.1, max r.y2 p.2⟩

/-- The destination bounding rectangle computed by TLN_SetSpriteRotation
(Sprite.c lines 419-461) for a picture of size w by h anchored at (x,y):
corners (x,y) through (x+w-1,y+h-1), rotation anchored at
(x - (w >> 1), y - (h >> 1)), angle wrapped by fmod 360, corners rounded,
then the axis-aligned bound of the four results. -/
noncomputable def rotationBoundRect (angle : ℝ) (x y w h : Int) : Rect :=
  let cx := x - Int.ediv w 2
  let cy := y - Int.ediv h 2
  let a := fmodReal angle 360
  let q0 := transformCorner a cx cy (x, y)
  let q1 := transformCorner a cx cy (x + w - 1, y)
  let q2 := transformCorner a cx cy (x + w - 1, y + h - 1)
  let q3 := transformCorner a cx cy (x, y + h - 1)
  boundAdd (boundAdd (boundAdd (boundSeed q0) q1) q2) q3

/-- The dimensions of the bitmap TLN_SetSpriteRotation allocates
(Sprite.c line 470): rectangle extent plus one on each axis. -/
noncomputable def rotationBitmapSize (angle : ℝ) (x y w h : Int) : Int × Int :=
  let r := rotationBoundRect angle x y w h
  (r.x2 - r.x1 + 1, r.y2 - r.y1 + 1)

/-- TLN_SetSpriteRotation after the index check (Sprite.c lines
413-506), with the allocation outcome as a parameter.  The source
destroys the previous rotated bitmap and overwrites dstrect before
allocating, and never checks the allocation result.  Vector2DSet
(Sprite.c line 383, called at lines 473-474) then divides by the
picture width and height unconditionally, so a zero dimension is a
division by zero before any further state commit, whatever the
allocation outcome; on a failed allocation with positive dimensions
the copy loop writes through the null bitmap.  Both undefined
executions are returned as an error carrying the partially mutated
state already reached.  Only for negative (degenerate) dimensions is
the loop empty and the sprite left in TRANSFORM mode with a null
rotated bitmap. -/
noncomputable def setSpriteRotationModel (angle : ℝ) (allocOk : Bool)
    (s : Sprite) : Except Sprite Sprite :=
  let rect := rotationBoundRect angle s.x s.y s.info.w s.info.h
  let s1 := {s with rotation_bitmap := none, dstrect := rect}
  if s.info.w = 0 ∨ s.info.h = 0 then Except.error s1
  else if allocOk then
    Except.ok {s1 with
      rotation_bitmap := some ⟨rect.x2 - rect.x1 + 1, rect.y2 - rect.y1 + 1⟩,
      mode := Mode.transform, draw := Mode.transform}
  else
    if 0 < s.info.w ∧ 0 < s.info.h then Except.error s1
    else Except.ok {s1 with mode := Mode.transform, draw := Mode.transform}

/-- A valid spriteset carrying its own palette (id 9) and one 16 by 16
frame. -/
def ssA : Spriteset := ⟨true, some 9, 16, [⟨16, 16, 0⟩]⟩

/-- A valid palette object with id 7, distinct from the palette of ssA. -/
def palA : PaletteObj := ⟨true, 7⟩

/-- A one-slot engine over a 256 by 224 framebuffer, freshly created. -/
def e0 : Engine := ⟨256, 224, [initSprite]⟩

/-- A configured, render-ready 16 by 16 sprite at the origin of a
256 by 224 framebuffer (spriteset and palette assigned, NORMAL mode),
as produced by SetSpriteset followed by SetPosition. -/
def exConfigured : Sprite :=
  {initSprite with
    spriteset := some ssA, palette := some 9, pitch := 16,
    info := ⟨16, 16, 0⟩, ok := true,
    srcrect := ⟨0, 0, 16, 16⟩, dstrect := ⟨0, 0, 16, 16⟩}

/-- The configured sprite moved to (-5,-5): the clipping example of the
specification. -/
def exC1 : Sprite := {exConfigured with x := -5, y := -5}

/-- The configured sprite moved fully outside the framebuffer on the
left: x + w = -4 <= 0. -/
def exC6 : Sprite := {exConfigured with x := -20, y := 0}

/-- The configured sprite after a prior successful SetRotation: it owns
a rotated bitmap and is in TRANSFORM mode. -/
def exC5prior : Sprite :=
  {exConfigured with rotation_bitmap := some ⟨23, 23⟩,
                     mode := Mode.transform, draw := Mode.transform}

/-- A sprite lies fully outside the framebuffer on some axis. -/
def fullyOutside (fbw fbh : Int) (s : Sprite) : Prop :=
  s.x + s.info.w ≤ 0 ∨ fbw ≤ s.x ∨ s.y + s.info.h ≤ 0 ∨ fbh ≤ s.y

/-- The engine after configuring slot 0 with ssA and then disabling it. -/
def c2runEngine : Engine :=
  (runOps e0 [SpriteOp.setSpriteSet 0 ssA, SpriteOp.disable 0]).getD e0

/-- The result of SetSpriteset(0, ssA) on a fresh slot. -/
def c2setRes : Bool × Sprite :=
  (setSpriteSetAux 256 224 0 ssA initSprite).getD (false, initSprite)

/-- The result of SetPalette(palA) on a fresh slot. -/
def c2palRes : Bool × Sprite :=
  (setSpritePaletteAux palA initSprite).getD (false, initSprite)

/-- A fresh slot whose palette was overridden with palette id 7 via
SetPalette. -/
def sPal7 : Sprite := {initSprite with palette := some 7}

/-- The result of SetSpriteset(0, ssA) on the palette-overridden slot. -/
def c8res : Bool × Sprite :=
  (setSpriteSetAux 256 224 0 ssA sPal7).getD (false, initSprite)

/-- The partially mutated state SetRotation(0 degrees) reaches on the
previously-rotated sprite just before writing through a null bitmap:
the prior rotated bitmap already destroyed and dstrect already
overwritten with the new bounding rectangle. -/
def exC5err : Sprite :=
  {exC5prior with rotation_bitmap := none, dstrect := ⟨0, 0, 15, 15⟩}

theorem clipNormal_spec (fbw fbh : Int) (src dst : Rect) :
    clipNormal fbw fbh src dst =
      (⟨src.x1 + (max dst.x1 0 - dst.x1), src.y1 + (max dst.y1 0 - dst.y1),
        src.x2 + (min dst.x2 fbw - dst.x2), src.y2 + (min dst.y2 fbh - dst.y2)⟩,
       ⟨max dst.x1 0, max dst.y1 0, min dst.x2 fbw, min dst.y2 fbh⟩) := by
  simp only [clipNormal, clipY1, clipY2, clipX1, clipX2]
  split_ifs <;> simp_all [Prod.mk.injEq, Rect.mk.injEq] <;> omega

theorem updateNormal_dstrect (fbw fbh : Int) (s : Sprite) :
    (updateNormal fbw fbh s).dstrect =
      ⟨max s.x 0, max s.y 0, min (s.x + s.info.w) fbw, min (s.y + s.info.h) fbh⟩ := by
  simp [updateNormal, clipNormal_spec]

theorem updateNormal_srcrect (fbw fbh : Int) (s : Sprite) :
    (updateNormal fbw fbh s).srcrect =
      ⟨0 + (max s.x 0 - s.x), 0 + (max s.y 0 - s.y),
       s.info.w + (min (s.x + s.info.w) fbw - (s.x + s.info.w)),
       s.info.h + (min (s.y + s.info.h) fbh - (s.y + s.info.h))⟩ := by
  simp [updateNormal, clipNormal_spec]

theorem updateSprite_refs {fbw fbh : Int} {s s1 : Sprite}
    (h : updateSprite fbw fbh s = some s1) :
    s1.ok = s.ok ∧ s1.spriteset = s.spriteset ∧ s1.palette = s.palette ∧
    s1.index = s.index ∧ s1.info = s.info ∧ s1.mode = s.mode := by
  unfold updateSprite at h
  split at h
  · cases h; exact ⟨rfl, rfl, rfl, rfl, rfl, rfl⟩
  · split at h
    · cases h; exact ⟨rfl, rfl, rfl, rfl, rfl, rfl⟩
    · simp only [updateScaling] at h
      split at h
      · exact Option.noConfusion h
      · cases h; exact ⟨rfl, rfl, rfl, rfl, rfl, rfl⟩
    · cases h; exact ⟨rfl, rfl, rfl, rfl, rfl, rfl⟩

/-- C1: in NORMAL mode the destination rectangle is the sprite position
plus the picture dimensions clipped to the framebuffer, and each source
edge is shifted from its initial value by exactly the signed amount the
matching destination edge moved under clipping. -/
theorem normalClipMatchesSourceShift (fbw fbh : Int) (s : Sprite)
    (h1 : s.ok = true) (h2 : s.mode = Mode.normal) :
    updateSprite fbw fbh s = some (updateNormal fbw fbh s) ∧
    (updateNormal fbw fbh s).dstrect =
      ⟨max s.x 0, max s.y 0, min (s.x + s.info.w) fbw, min (s.y + s.info.h) fbh⟩ ∧
    (updateNormal fbw fbh s).srcrect.x1 =
      0 + ((updateNormal fbw fbh s).dstrect.x1 - s.x) ∧
    (updateNormal fbw fbh s).srcrect.y1 =
      0 + ((updateNormal fbw fbh s).dstrect.y1 - s.y) ∧
    (updateNormal fbw fbh s).srcrect.x2 =
      s.info.w + ((updateNormal fbw fbh s).dstrect.x2 - (s.x + s.info.w)) ∧
    (updateNormal fbw fbh s).srcrect.y2 =
      s.info.h + ((updateNormal fbw fbh s).dstrect.y2 - (s.y + s.info.h)) := by
  refine ⟨by simp [updateSprite, h1, h2], updateNormal_dstrect fbw fbh s, ?_, ?_, ?_, ?_⟩ <;>
    rw [updateNormal_srcrect, updateNormal_dstrect]

/-- C1 witness: the 16 by 16 picture at (-5,-5) on a 256 by 224
framebuffer, giving source (5,5)-(16,16) and destination (0,0)-(11,11). -/
theorem normalClipMatchesSourceShift_witness :
    exC1.ok = true ∧ exC1.mode = Mode.normal ∧
    (updateSprite 256 224 exC1 = some (updateNormal 256 224 exC1) ∧
     (updateNormal 256 224 exC1).dstrect =
       ⟨max exC1.x 0, max exC1.y 0, min (exC1.x + exC1.info.w) 256,
        min (exC1.y + exC1.info.h) 224⟩ ∧
     (updateNormal 256 224 exC1).srcrect.x1 =
       0 + ((updateNormal 256 224 exC1).dstrect.x1 - exC1.x) ∧
     (updateNormal 256 224 exC1).srcrect.y1 =
       0 + ((updateNormal 256 224 exC1).dstrect.y1 - exC1.y) ∧
     (updateNormal 256 224 exC1).srcrect.x2 =
       exC1.info.w + ((updateNormal 256 224 exC1).dstrect.x2 - (exC1.x + exC1.info.w)) ∧
     (updateNormal 256 224 exC1).srcrect.y2 =
       exC1.info.h + ((updateNormal 256 224 exC1).dstrect.y2 - (exC1.y + exC1.info.h))) ∧
    (updateNormal 256 224 exC1).srcrect = ⟨5, 5, 16, 16⟩ ∧
    (updateNormal 256 224 exC1).dstrect = ⟨0, 0, 11, 11⟩ :=
  ⟨rfl, rfl, normalClipMatchesSourceShift 256 224 exC1 rfl rfl, by decide, by decide⟩

/-- C3: the only index guard is nsprite >= numsprites, so the negative
index -1 is not rejected (the operation proceeds into the sprite array
out of bounds), while the specification demands rejection of every
index outside [0, numsprites). -/
theorem negativeIndexNotRejected :
    spriteIndexRejected (-1) 4 = false ∧ ¬ spriteIndexValid (-1) 4 ∧
    spriteIndexRejected 4 4 = true ∧ spriteIndexRejected 5 4 = true := by
  refine ⟨rfl, ?_, rfl, rfl⟩
  intro hv
  exact absurd hv.1 (by decide)

/-- C4: SetScaling with a factor that collapses the destination span to
zero is not rejected: the recomputation reaches the truncating division
srcw/dstw with dstw = 0 (undefined behaviour, modelled as none).  When
the spans are non-zero the per-axis steps are exactly the fixed-point
source span divided by the destination span. -/
theorem scalingZeroSpanDivides :
    setSpriteScalingAux 256 224 ⟨0, 1⟩ ⟨1, 1⟩ exConfigured = none ∧
    (setSpriteScalingAux 256 224 ⟨2, 1⟩ ⟨2, 1⟩ exConfigured).map
        (fun r => (r.2.dx, r.2.dy)) =
      some (Int.tdiv (int2fix 16) 32, Int.tdiv (int2fix 16) 32) := by
  exact ⟨by decide, by decide⟩

/-- C6 counterexample: the configured 16 by 16 sprite at (-20,0) lies
fully outside the 256 by 224 framebuffer, yet its recomputed
destination rectangle has width -4 and height 16: neither extent is
zero, contradicting the claim as stated. -/
theorem fullyOutsideNotZeroExtent :
    exC6.ok = true ∧ exC6.mode = Mode.normal ∧ fullyOutside 256 224 exC6 ∧
    ¬((updateNormal 256 224 exC6).dstrect.x2 - (updateNormal 256 224 exC6).dstrect.x1 = 0 ∨
      (updateNormal 256 224 exC6).dstrect.y2 - (updateNormal 256 224 exC6).dstrect.y1 = 0) :=
  ⟨rfl, rfl, Or.inl (by decide), by decide⟩

/-- C6 amended: a configured NORMAL-mode sprite fully outside the
framebuffer yields a destination rectangle of nonpositive (zero or
negative) extent on the relevant axis, so nothing is drawn. -/
theorem fullyOutsideNonposExtent (fbw fbh : Int) (s : Sprite)
    (_h1 : s.ok = true) (_h2 : s.mode = Mode.normal)
    (hw : 0 ≤ s.info.w) (hh : 0 ≤ s.info.h)
    (hfw : 0 ≤ fbw) (hfh : 0 ≤ fbh) (hout : fullyOutside fbw fbh s) :
    (updateNormal fbw fbh s).dstrect.x2 - (updateNormal fbw fbh s).dstrect.x1 ≤ 0 ∨
    (updateNormal fbw fbh s).dstrect.y2 - (updateNormal fbw fbh s).dstrect.y1 ≤ 0 := by
  rw [updateNormal_dstrect]
  unfold fullyOutside at hout
  simp only []
  omega

/-- C6 amended witness: the (-20,0) sprite instantiates the amended
statement. -/
theorem fullyOutsideNonposExtent_witness :
    (exC6.ok = true ∧ exC6.mode = Mode.normal ∧ 0 ≤ exC6.info.w ∧ 0 ≤ exC6.info.h ∧
      fullyOutside 256 224 exC6) ∧
    ((updateNormal 256 224 exC6).dstrect.x2 - (updateNormal 256 224 exC6).dstrect.x1 ≤ 0 ∨
     (updateNormal 256 224 exC6).dstrect.y2 - (updateNormal 256 224 exC6).dstrect.y1 ≤ 0) :=
  ⟨⟨rfl, rfl, by decide, by decide, Or.inl (by decide)⟩,
   fullyOutsideNonposExtent 256 224 exC6 rfl rfl (by decide) (by decide)
     (by decide) (by decide) (Or.inl (by decide))⟩

/-- C9: the priority-property parser assigns true in both of its
branches, so the stored per-tile priority attribute becomes true
regardless of the value string. -/
theorem priorityParsedTrueRegardless :
    (∀ v : String, priorityFromValue v = true) ∧
    priorityFromValue "false" = true ∧
    (∀ (tid : Nat) (v : String) (attrs : List TLN_TileAttributes),
      applyPriorityValue tid v attrs =
        attrs.set tid {attrs.getD tid ⟨0, false⟩ with priority := true}) := by
  refine ⟨?_, by decide, ?_⟩
  · intro v; unfold priorityFromValue; split <;> rfl
  · intro tid v attrs; unfold applyPriorityValue; split <;> rfl

/-- C10: the internal update routine returns without touching the
sprite whenever ok is false, so SetPosition on a valid but not-ok
sprite returns true and stores the coordinates while every other field,
including both rectangles, is left unchanged. -/
theorem setPositionNotOkOnlyStoresXY (fbw fbh px py : Int) (s : Sprite)
    (h : s.ok = false) :
    updateSprite fbw fbh s = some s ∧
    setSpritePositionAux fbw fbh px py s = some (true, {s with x := px, y := py}) := by
  have hgate : ∀ t : Sprite, t.ok = false → updateSprite fbw fbh t = some t := by
    intro t ht
    unfold updateSprite
    simp [ht]
  refine ⟨hgate s h, ?_⟩
  unfold setSpritePositionAux
  rw [hgate {s with x := px, y := py} h]
  rfl

theorem pairEq {x : Bool} {y : Sprite} {b : Bool} {s : Sprite}
    (h : some (x, y) = some (b, s)) : x = b ∧ y = s := by
  injection h with h1
  injection h1 with h2 h3
  exact ⟨h2, h3⟩

theorem okImpliesRefs_mk {t : Sprite}
    (h : t.ok = (t.spriteset.isSome && t.palette.isSome)) : okImpliesRefs t := by
  intro hOk
  rw [h] at hOk
  exact ⟨((Bool.and_eq_true _ _).mp hOk).1, ((Bool.and_eq_true _ _).mp hOk).2⟩

theorem okImpliesRefs_carry {s t : Sprite} (hok : t.ok = s.ok)
    (hset : t.spriteset = s.spriteset) (hpal : t.palette = s.palette)
    (hs : okImpliesRefs s) : okImpliesRefs t := by
  intro hOk
  rw [hok] at hOk
  rw [hset, hpal]
  exact hs hOk

theorem presOk_setSpritePicture (fbw fbh : Int) (entry : Nat) :
    presOk (setSpritePictureAux fbw fbh entry) := by
  intro s b s1 h hs
  simp only [setSpritePictureAux] at h
  split at h
  · obtain ⟨-, h2⟩ := pairEq h
    subst h2
    exact hs
  · split at h
    · obtain ⟨-, h2⟩ := pairEq h
      subst h2
      exact hs
    · rw [Option.map_eq_some'] at h
      obtain ⟨s2, hupd, hpair⟩ := h
      injection hpair with hb hs1
      subst hs1
      obtain ⟨hok, hset, hpal, -, -, -⟩ := updateSprite_refs hupd
      exact okImpliesRefs_carry hok hset hpal hs

theorem presOk_setSpriteSet (fbw fbh : Int) (n : Nat) (ss : Spriteset) :
    presOk (setSpriteSetAux fbw fbh n ss) := by
  intro s b s1 h hs
  simp only [setSpriteSetAux] at h
  split at h
  · obtain ⟨-, h2⟩ := pairEq h
    subst h2
    exact hs
  · split at h
    · exact presOk_setSpritePicture fbw fbh 0 _ b s1 h (okImpliesRefs_mk rfl)
    · exact presOk_setSpritePicture fbw fbh 0 _ b s1 h (okImpliesRefs_mk rfl)

theorem presOk_setSpriteFlags (f : Int) : presOk (setSpriteFlagsAux f) := by
  intro s b s1 h hs
  obtain ⟨-, h2⟩ := pairEq h
  subst h2
  exact hs

theorem presOk_setSpritePosition (fbw fbh px py : Int) :
    presOk (setSpritePositionAux fbw fbh px py) := by
  intro s b s1 h hs
  simp only [setSpritePositionAux, Option.map_eq_some'] at h
  obtain ⟨s2, hupd, hpair⟩ := h
  injection hpair with hb hs1
  subst hs1
  obtain ⟨hok, hset, hpal, -, -, -⟩ := updateSprite_refs hupd
  exact okImpliesRefs_carry hok hset hpal hs

theorem presOk_setSpritePalette (p : PaletteObj) :
    presOk (setSpritePaletteAux p) := by
  intro s b s1 h hs
  unfold setSpritePaletteAux at h
  split at h
  · obtain ⟨-, h2⟩ := pairEq h
    subst h2
    exact hs
  · obtain ⟨-, h2⟩ := pairEq h
    subst h2
    exact okImpliesRefs_mk rfl

theorem presOk_setSpriteBlendMode (m : Nat) :
    presOk (setSpriteBlendModeAux m) := by
  intro s b s1 h hs
  obtain ⟨-, h2⟩ := pairEq h
  subst h2
  exact hs

theorem presOk_setSpriteScaling (fbw fbh : Int) (sxq syq : ScaleF) :
    presOk (setSpriteScalingAux fbw fbh sxq syq) := by
  intro s b s1 h hs
  simp only [setSpriteScalingAux, Option.map_eq_some'] at h
  obtain ⟨s2, hupd, hpair⟩ := h
  injection hpair with hb hs1
  subst hs1
  obtain ⟨hok, hset, hpal, -, -, -⟩ := updateSprite_refs hupd
  exact okImpliesRefs_carry hok hset hpal hs

theorem presOk_resetSpriteScaling (fbw fbh : Int) :
    presOk (resetSpriteScalingAux fbw fbh) := by
  intro s b s1 h hs
  simp only [resetSpriteScalingAux, Option.map_eq_some'] at h
  obtain ⟨s2, hupd, hpair⟩ := h
  injection hpair with hb hs1
  subst hs1
  obtain ⟨hok, hset, hpal, -, -, -⟩ := updateSprite_refs hupd
  exact okImpliesRefs_carry hok hset hpal hs

theorem presOk_setSpriteRotationEff (allocOk : Bool) (rect : Rect) :
    presOk (setSpriteRotationEff allocOk rect) := by
  intro s b s1 h hs
  unfold setSpriteRotationEff at h
  split at h
  · exact Option.noConfusion h
  · split at h
    · obtain ⟨-, h2⟩ := pairEq h
      subst h2
      exact hs
    · split at h
      · exact Option.noConfusion h
      · obtain ⟨-, h2⟩ := pairEq h
        subst h2
        exact hs

theorem presOk_resetSpriteRotation : presOk resetSpriteRotationAux := by
  intro s b s1 h hs
  obtain ⟨-, h2⟩ := pairEq h
  subst h2
  exact hs

theorem presOk_enableSpriteCollision (b0 : Bool) :
    presOk (enableSpriteCollisionAux b0) := by
  intro s b s1 h hs
  obtain ⟨-, h2⟩ := pairEq h
  subst h2
  exact hs

theorem presOk_disableSprite : presOk disableSpriteAux := by
  intro s b s1 h hs
  obtain ⟨-, h2⟩ := pairEq h
  subst h2
  intro hOk
  simp at hOk

theorem applySpriteOp_inv {e : Engine} {n : Nat}
    {f : Sprite → Option (Bool × Sprite)} {b : Bool} {e1 : Engine}
    (hf : presOk f) (h : applySpriteOp e n f = some (b, e1)) (he : engineInv e) :
    engineInv e1 := by
  unfold applySpriteOp at h
  split at h
  · next hn =>
      split at h
      · exact Option.noConfusion h
      · next b2 s1 hfs =>
          injection h with h1
          injection h1 with h2 h3
          subst h3
          intro s hsml
          rcases List.mem_or_eq_of_mem_set hsml with hmem | hseq
          · exact he s hmem
          · subst hseq
            exact hf _ _ _ hfs (he _ (List.get_mem _ _ _))
  · injection h with h1
    injection h1 with h2 h3
    subst h3
    exact he

theorem stepOp_inv {e : Engine} {op : SpriteOp} {b : Bool} {e1 : Engine}
    (h : stepOp e op = some (b, e1)) (he : engineInv e) : engineInv e1 := by
  cases op with
  | setSpriteSet n ss => exact applySpriteOp_inv (presOk_setSpriteSet _ _ _ _) h he
  | setFlags n f => exact applySpriteOp_inv (presOk_setSpriteFlags _) h he
  | setPosition n px py => exact applySpriteOp_inv (presOk_setSpritePosition _ _ _ _) h he
  | setPicture n entry => exact applySpriteOp_inv (presOk_setSpritePicture _ _ _) h he
  | setPalette n p => exact applySpriteOp_inv (presOk_setSpritePalette _) h he
  | setBlendMode n m => exact applySpriteOp_inv (presOk_setSpriteBlendMode _) h he
  | setScaling n sxq syq => exact applySpriteOp_inv (presOk_setSpriteScaling _ _ _ _) h he
  | resetScaling n => exact applySpriteOp_inv (presOk_resetSpriteScaling _ _) h he
  | setRotation n allocOk rect =>
      exact applySpriteOp_inv (presOk_setSpriteRotationEff _ _) h he
  | resetRotation n => exact applySpriteOp_inv presOk_resetSpriteRotation h he
  | enableCollision n b0 => exact applySpriteOp_inv (presOk_enableSpriteCollision _) h he
  | disable n => exact applySpriteOp_inv presOk_disableSprite h he
  | configSprite n ss f =>
      simp only [stepOp] at h
      split at h
      · exact Option.noConfusion h
      · next b2 e2 heq =>
          have he2 : engineInv e2 :=
            applySpriteOp_inv (presOk_setSpriteSet _ _ _ _) heq he
          split at h
          · exact applySpriteOp_inv (presOk_setSpriteFlags _) h he2
          · injection h with h1
            injection h1 with hb he1
            subst he1
            exact he2

theorem runOps_inv (ops : List SpriteOp) (e e1 : Engine)
    (h : runOps e ops = some e1) (he : engineInv e) : engineInv e1 := by
  induction ops generalizing e with
  | nil =>
      unfold runOps at h
      injection h with h1
      subst h1
      exact he
  | cons op rest ih =>
      unfold runOps at h
      split at h
      · exact Option.noConfusion h
      · next b e2 hstep => exact ih e2 h (stepOp_inv hstep he)

theorem engineInv_e0 : engineInv e0 := by
  intro s hs
  have hs2 : s ∈ [initSprite] := hs
  rw [List.mem_singleton] at hs2
  subst hs2
  intro hOk
  exact absurd hOk (by decide)

theorem setSpritePaletteAux_spec (p : PaletteObj) (s : Sprite) (b : Bool)
    (s1 : Sprite) (hv : p.valid = true)
    (h : setSpritePaletteAux p s = some (b, s1)) :
    b = true ∧ s1.palette = some p.pid ∧ s1.spriteset = s.spriteset ∧
    s1.ok = (s1.spriteset.isSome && s1.palette.isSome) := by
  simp only [setSpritePaletteAux] at h
  rw [if_neg (by simp [hv])] at h
  obtain ⟨hb, hs1⟩ := pairEq h
  subst hs1
  exact ⟨hb.symm, rfl, rfl, rfl⟩

theorem setSpriteSetAux_spec (fbw fbh : Int) (n : Nat) (ss : Spriteset)
    (s : Sprite) (b : Bool) (s1 : Sprite) (hv : ss.valid = true)
    (h : setSpriteSetAux fbw fbh n ss s = some (b, s1)) :
    b = true ∧ s1.spriteset = some ss ∧
    s1.palette = (if ss.palette.isSome then ss.palette else s.palette) ∧
    s1.ok = (s1.spriteset.isSome && s1.palette.isSome) ∧
    s1.index = 0 := by
  simp only [setSpriteSetAux] at h
  rw [if_neg (by simp [hv])] at h
  rcases hp : ss.palette with _ | p
  all_goals simp only [hp] at h
  all_goals simp only [setSpritePictureAux] at h
  all_goals rw [if_neg (by simp [hv])] at h
  all_goals rw [Option.map_eq_some'] at h
  all_goals obtain ⟨s2, hupd, hpair⟩ := h
  all_goals injection hpair with hb hs1
  all_goals subst hs1
  all_goals obtain ⟨hok, hset, hpal, hidx, -, -⟩ := updateSprite_refs hupd
  · refine ⟨hb.symm, ?_, ?_, ?_, ?_⟩
    · rw [hset]
    · rw [hpal]
      simp [hp]
    · rw [hok, hset, hpal]
    · rw [hidx]
      rfl
  · refine ⟨hb.symm, ?_, ?_, ?_, ?_⟩
    · rw [hset]
    · rw [hpal]
      simp [hp]
    · rw [hok, hset, hpal]
    · rw [hidx]
      rfl

/-- C2 counterexample: configuring slot 0 with a spriteset (whose
palette is adopted) and then disabling it leaves ok false while both
the spriteset and the palette remain assigned, so the claimed
equivalence does not survive Disable. -/
theorem disableBreaksOkEquivalence :
    (runOps e0 [SpriteOp.setSpriteSet 0 ssA, SpriteOp.disable 0]).map
        (fun e => ((e.sprites.getD 0 initSprite).ok,
                   (e.sprites.getD 0 initSprite).spriteset.isSome,
                   (e.sprites.getD 0 initSprite).palette.isSome)) =
      some (false, true, true) := by decide

/-- C2 amended: along every operation sequence, ok = true implies both
references are assigned; the full equivalence is re-established by
every successful SetSpriteset and SetPalette, but Disable clears ok
without clearing the references, so only this one-directional invariant
is preserved by all operations. -/
theorem okNeverOutrunsRefs :
    (∀ (ops : List SpriteOp) (e e1 : Engine),
       runOps e ops = some e1 → engineInv e → engineInv e1) ∧
    (∀ (fbw fbh : Int) (n : Nat) (ss : Spriteset) (s : Sprite) (b : Bool)
       (s1 : Sprite), ss.valid = true →
       setSpriteSetAux fbw fbh n ss s = some (b, s1) →
       s1.ok = (s1.spriteset.isSome && s1.palette.isSome)) ∧
    (∀ (p : PaletteObj) (s : Sprite) (b : Bool) (s1 : Sprite),
       p.valid = true → setSpritePaletteAux p s = some (b, s1) →
       s1.ok = (s1.spriteset.isSome && s1.palette.isSome)) :=
  ⟨runOps_inv,
   fun fbw fbh n ss s b s1 hv h =>
     (setSpriteSetAux_spec fbw fbh n ss s b s1 hv h).2.2.2.1,
   fun p s b s1 hv h => (setSpritePaletteAux_spec p s b s1 hv h).2.2.2⟩

/-- C2 amended witness: the invariant holds after the configure-disable
sequence, and both mutators re-establish the equivalence on a fresh
slot. -/
theorem okNeverOutrunsRefs_witness :
    engineInv c2runEngine ∧
    c2setRes.2.ok = (c2setRes.2.spriteset.isSome && c2setRes.2.palette.isSome) ∧
    c2palRes.2.ok = (c2palRes.2.spriteset.isSome && c2palRes.2.palette.isSome) :=
  ⟨okNeverOutrunsRefs.1 [SpriteOp.setSpriteSet 0 ssA, SpriteOp.disable 0]
     e0 c2runEngine rfl engineInv_e0,
   okNeverOutrunsRefs.2.1 256 224 0 ssA initSprite c2setRes.1 c2setRes.2 rfl rfl,
   okNeverOutrunsRefs.2.2 palA initSprite c2palRes.1 c2palRes.2 rfl rfl⟩

/-- C8 counterexample: a palette set via SetPalette (id 7) does not
survive a subsequent SetSpriteset whose spriteset carries a palette
(id 9): the sprite ends with palette 9, not 7. -/
theorem setSpritesetOverridesPalette :
    (runOps e0 [SpriteOp.setPalette 0 palA]).map
        (fun e => (e.sprites.getD 0 initSprite).palette) = some (some 7) ∧
    ssA.palette = some 9 ∧
    (runOps e0 [SpriteOp.setPalette 0 palA, SpriteOp.setSpriteSet 0 ssA]).map
        (fun e => (e.sprites.getD 0 initSprite).palette) = some (some 9) :=
  ⟨by decide, by decide, by decide⟩

/-- C8 amended: SetSpriteset assigns the spriteset and adopts the
spriteset palette whenever the spriteset carries one, overwriting any
previously-set palette; only when the spriteset has no palette does the
sprite keep its prior palette.  It recomputes ok and re-selects
picture 0. -/
theorem setSpritesetAdoptsPalette (fbw fbh : Int) (n : Nat) (ss : Spriteset)
    (s : Sprite) (b : Bool) (s1 : Sprite) (hv : ss.valid = true)
    (h : setSpriteSetAux fbw fbh n ss s = some (b, s1)) :
    b = true ∧ s1.spriteset = some ss ∧
    s1.palette = (if ss.palette.isSome then ss.palette else s.palette) ∧
    s1.ok = (s1.spriteset.isSome && s1.palette.isSome) ∧
    s1.index = 0 :=
  setSpriteSetAux_spec fbw fbh n ss s b s1 hv h

/-- C8 amended witness: SetSpriteset(ssA) on the slot whose palette was
overridden to 7 adopts palette 9 of ssA. -/
theorem setSpritesetAdoptsPalette_witness :
    ssA.valid = true ∧
    (c8res.1 = true ∧ c8res.2.spriteset = some ssA ∧
     c8res.2.palette = (if ssA.palette.isSome then ssA.palette else sPal7.palette) ∧
     c8res.2.ok = (c8res.2.spriteset.isSome && c8res.2.palette.isSome) ∧
     c8res.2.index = 0) :=
  ⟨rfl, setSpritesetAdoptsPalette 256 224 0 ssA sPal7 c8res.1 c8res.2 rfl rfl⟩

/-- C10 witness: a fresh slot has ok false; SetPosition(3,4) stores the
coordinates and changes nothing else. -/
theorem setPositionNotOkOnlyStoresXY_witness :
    initSprite.ok = false ∧
    (updateSprite 256 224 initSprite = some initSprite ∧
     setSpritePositionAux 256 224 3 4 initSprite =
       some (true, {initSprite with x := 3, y := 4})) :=
  ⟨rfl, setPositionNotOkOnlyStoresXY 256 224 3 4 initSprite rfl⟩

theorem sqrt2_gt : (1.414 : ℝ) < Real.sqrt 2 := by
  nlinarith [Real.sq_sqrt (show (0:ℝ) ≤ 2 by norm_num), Real.sqrt_nonneg 2]

theorem sqrt2_lt : Real.sqrt 2 < 1.4143 := by
  nlinarith [Real.sq_sqrt (show (0:ℝ) ≤ 2 by norm_num), Real.sqrt_nonneg 2]

theorem round_eq_of_bounds (x : ℝ) (n : ℤ) (h1 : (n : ℝ) - 1/2 ≤ x)
    (h2 : x < (n : ℝ) + 1/2) : round x = n := by
  rw [round_eq]
  refine Int.floor_eq_iff.2 ⟨by linarith, by linarith⟩

theorem round_8sqrt2 : round ((8 : ℝ) * Real.sqrt 2) = 11 := by
  apply round_eq_of_bounds <;> push_cast <;> nlinarith [sqrt2_gt, sqrt2_lt]

theorem round_4sqrt2 : round ((4 : ℝ) * Real.sqrt 2) = 6 := by
  apply round_eq_of_bounds <;> push_cast <;> nlinarith [sqrt2_gt, sqrt2_lt]

theorem round_23sqrt2 : round ((23 : ℝ) * Real.sqrt 2) = 33 := by
  apply round_eq_of_bounds <;> push_cast <;> nlinarith [sqrt2_gt, sqrt2_lt]

theorem round_11sqrt2 : round ((11 : ℝ) * Real.sqrt 2) = 16 := by
  apply round_eq_of_bounds <;> push_cast <;> nlinarith [sqrt2_gt, sqrt2_lt]

theorem round_15h : round ((15/2 : ℝ) * Real.sqrt 2) = 11 := by
  apply round_eq_of_bounds <;> push_cast <;> nlinarith [sqrt2_gt, sqrt2_lt]

theorem round_31h : round ((31/2 : ℝ) * Real.sqrt 2) = 22 := by
  apply round_eq_of_bounds <;> push_cast <;> nlinarith [sqrt2_gt, sqrt2_lt]

theorem round_7h : round ((7/2 : ℝ) * Real.sqrt 2) = 5 := by
  apply round_eq_of_bounds <;> push_cast <;> nlinarith [sqrt2_gt, sqrt2_lt]

theorem round_neg15h : round ((-(15/2) : ℝ) * Real.sqrt 2) = -11 := by
  apply round_eq_of_bounds <;> push_cast <;> nlinarith [sqrt2_gt, sqrt2_lt]

theorem round_neg7h : round ((-(7/2) : ℝ) * Real.sqrt 2) = -5 := by
  apply round_eq_of_bounds <;> push_cast <;> nlinarith [sqrt2_gt, sqrt2_lt]

theorem ceil_16sqrt2 : ⌈(16 : ℝ) * Real.sqrt 2⌉ = 23 := by
  refine Int.ceil_eq_iff.2 ⟨?_, ?_⟩ <;> push_cast <;> nlinarith [sqrt2_gt, sqrt2_lt]

theorem ceil_8sqrt2 : ⌈(8 : ℝ) * Real.sqrt 2⌉ = 12 := by
  refine Int.ceil_eq_iff.2 ⟨?_, ?_⟩ <;> push_cast <;> nlinarith [sqrt2_gt, sqrt2_lt]

theorem fmod45 : fmodReal 45 360 = 45 := by
  unfold fmodReal realTrunc
  rw [if_pos (by positivity)]
  rw [show ⌊(45 : ℝ) / 360⌋ = 0 from Int.floor_eq_iff.2 ⟨by norm_num, by norm_num⟩]
  norm_num

theorem fmod0 : fmodReal 0 360 = 0 := by
  unfold fmodReal realTrunc
  rw [if_pos (by norm_num)]
  norm_num

theorem cos_deg45 : Real.cos ((45 : ℝ) * Real.pi / 180) = Real.sqrt 2 / 2 := by
  rw [show (45 : ℝ) * Real.pi / 180 = Real.pi / 4 from by ring, Real.cos_pi_div_four]

theorem sin_deg45 : Real.sin ((45 : ℝ) * Real.pi / 180) = Real.sqrt 2 / 2 := by
  rw [show (45 : ℝ) * Real.pi / 180 = Real.pi / 4 from by ring, Real.sin_pi_div_four]

theorem cos_deg0 : Real.cos ((0 : ℝ) * Real.pi / 180) = 1 := by
  rw [show (0 : ℝ) * Real.pi / 180 = 0 from by ring, Real.cos_zero]

theorem sin_deg0 : Real.sin ((0 : ℝ) * Real.pi / 180) = 0 := by
  rw [show (0 : ℝ) * Real.pi / 180 = 0 from by ring, Real.sin_zero]

theorem transformCorner0 (cx cy : ℤ) (p : ℤ × ℤ) :
    transformCorner 0 cx cy p = p := by
  obtain ⟨a, b⟩ := p
  simp only [transformCorner, rotatePoint, cos_deg0, sin_deg0, Prod.mk.injEq]
  refine ⟨?_, ?_⟩
  · rw [show ((a : ℝ) - (cx : ℝ)) * 1 - ((b : ℝ) - (cy : ℝ)) * 0 + (cx : ℝ)
        = ((a : ℤ) : ℝ) from by ring, round_intCast]
  · rw [show ((a : ℝ) - (cx : ℝ)) * 0 + ((b : ℝ) - (cy : ℝ)) * 1 + (cy : ℝ)
        = ((b : ℤ) : ℝ) from by ring, round_intCast]

theorem rotBound0_ex : rotationBoundRect 0 0 0 16 16 = ⟨0, 0, 15, 15⟩ := by
  simp only [rotationBoundRect, fmod0, transformCorner0]
  decide

theorem rotBound45_16 (x y : ℤ) :
    rotationBoundRect 45 x y 16 16 = ⟨x - 19, y + 3, x + 3, y + 25⟩ := by
  have hdiv : Int.ediv (16 : ℤ) 2 = 8 := by decide
  have hc0 : transformCorner 45 (x - 8) (y - 8) (x, y) = (x - 8, y + 3) := by
    simp only [transformCorner, rotatePoint, cos_deg45, sin_deg45, Prod.mk.injEq]
    refine ⟨?_, ?_⟩
    · rw [show ((x : ℝ) - ((x - 8 : ℤ) : ℝ)) * (Real.sqrt 2 / 2) -
          ((y : ℝ) - ((y - 8 : ℤ) : ℝ)) * (Real.sqrt 2 / 2) + ((x - 8 : ℤ) : ℝ)
          = (0 : ℝ) + ((x - 8 : ℤ) : ℝ) from by push_cast; ring,
        round_add_int, round_zero]
      omega
    · rw [show ((x : ℝ) - ((x - 8 : ℤ) : ℝ)) * (Real.sqrt 2 / 2) +
          ((y : ℝ) - ((y - 8 : ℤ) : ℝ)) * (Real.sqrt 2 / 2) + ((y - 8 : ℤ) : ℝ)
          = (8 : ℝ) * Real.sqrt 2 + ((y - 8 : ℤ) : ℝ) from by push_cast; ring,
        round_add_int, round_8sqrt2]
      omega
  have hc1 : transformCorner 45 (x - 8) (y - 8) (x + 16 - 1, y) = (x + 3, y + 14) := by
    simp only [transformCorner, rotatePoint, cos_deg45, sin_deg45, Prod.mk.injEq]
    refine ⟨?_, ?_⟩
    · rw [show (((x + 16 - 1 : ℤ) : ℝ) - ((x - 8 : ℤ) : ℝ)) * (Real.sqrt 2 / 2) -
          ((y : ℝ) - ((y - 8 : ℤ) : ℝ)) * (Real.sqrt 2 / 2) + ((x - 8 : ℤ) : ℝ)
          = (15/2 : ℝ) * Real.sqrt 2 + ((x - 8 : ℤ) : ℝ) from by push_cast; ring,
        round_add_int, round_15h]
      omega
    · rw [show (((x + 16 - 1 : ℤ) : ℝ) - ((x - 8 : ℤ) : ℝ)) * (Real.sqrt 2 / 2) +
          ((y : ℝ) - ((y - 8 : ℤ) : ℝ)) * (Real.sqrt 2 / 2) + ((y - 8 : ℤ) : ℝ)
          = (31/2 : ℝ) * Real.sqrt 2 + ((y - 8 : ℤ) : ℝ) from by push_cast; ring,
        round_add_int, round_31h]
      omega
  have hc2 : transformCorner 45 (x - 8) (y - 8) (x + 16 - 1, y + 16 - 1) =
      (x - 8, y + 25) := by
    simp only [transformCorner, rotatePoint, cos_deg45, sin_deg45, Prod.mk.injEq]
    refine ⟨?_, ?_⟩
    · rw [show (((x + 16 - 1 : ℤ) : ℝ) - ((x - 8 : ℤ) : ℝ)) * (Real.sqrt 2 / 2) -
          (((y + 16 - 1 : ℤ) : ℝ) - ((y - 8 : ℤ) : ℝ)) * (Real.sqrt 2 / 2) + ((x - 8 : ℤ) : ℝ)
          = (0 : ℝ) + ((x - 8 : ℤ) : ℝ) from by push_cast; ring,
        round_add_int, round_zero]
      omega
    · rw [show (((x + 16 - 1 : ℤ) : ℝ) - ((x - 8 : ℤ) : ℝ)) * (Real.sqrt 2 / 2) +
          (((y + 16 - 1 : ℤ) : ℝ) - ((y - 8 : ℤ) : ℝ)) * (Real.sqrt 2 / 2) + ((y - 8 : ℤ) : ℝ)
          = (23 : ℝ) * Real.sqrt 2 + ((y - 8 : ℤ) : ℝ) from by push_cast; ring,
        round_add_int, round_23sqrt2]
      omega
  have hc3 : transformCorner 45 (x - 8) (y - 8) (x, y + 16 - 1) = (x - 19, y + 14) := by
    simp only [transformCorner, rotatePoint, cos_deg45, sin_deg45, Prod.mk.injEq]
    refine ⟨?_, ?_⟩
    · rw [show ((x : ℝ) - ((x - 8 : ℤ) : ℝ)) * (Real.sqrt 2 / 2) -
          (((y + 16 - 1 : ℤ) : ℝ) - ((y - 8 : ℤ) : ℝ)) * (Real.sqrt 2 / 2) + ((x - 8 : ℤ) : ℝ)
          = (-(15/2) : ℝ) * Real.sqrt 2 + ((x - 8 : ℤ) : ℝ) from by push_cast; ring,
        round_add_int, round_neg15h]
      omega
    · rw [show ((x : ℝ) - ((x - 8 : ℤ) : ℝ)) * (Real.sqrt 2 / 2) +
          (((y + 16 - 1 : ℤ) : ℝ) - ((y - 8 : ℤ) : ℝ)) * (Real.sqrt 2 / 2) + ((y - 8 : ℤ) : ℝ)
          = (31/2 : ℝ) * Real.sqrt 2 + ((y - 8 : ℤ) : ℝ) from by push_cast; ring,
        round_add_int, round_31h]
      omega
  simp only [rotationBoundRect, fmod45, hdiv]
  rw [hc0, hc1, hc2, hc3]
  simp only [boundSeed, boundAdd, Rect.mk.injEq]
  refine ⟨?_, ?_, ?_, ?_⟩ <;> omega

theorem rotBound45_8 (x y : ℤ) :
    rotationBoundRect 45 x y 8 8 = ⟨x - 9, y + 2, x + 1, y + 12⟩ := by
  have hdiv : Int.ediv (8 : ℤ) 2 = 4 := by decide
  have hc0 : transformCorner 45 (x - 4) (y - 4) (x, y) = (x - 4, y + 2) := by
    simp only [transformCorner, rotatePoint, cos_deg45, sin_deg45, Prod.mk.injEq]
    refine ⟨?_, ?_⟩
    · rw [show ((x : ℝ) - ((x - 4 : ℤ) : ℝ)) * (Real.sqrt 2 / 2) -
          ((y : ℝ) - ((y - 4 : ℤ) : ℝ)) * (Real.sqrt 2 / 2) + ((x - 4 : ℤ) : ℝ)
          = (0 : ℝ) + ((x - 4 : ℤ) : ℝ) from by push_cast; ring,
        round_add_int, round_zero]
      omega
    · rw [show ((x : ℝ) - ((x - 4 : ℤ) : ℝ)) * (Real.sqrt 2 / 2) +
          ((y : ℝ) - ((y - 4 : ℤ) : ℝ)) * (Real.sqrt 2 / 2) + ((y - 4 : ℤ) : ℝ)
          = (4 : ℝ) * Real.sqrt 2 + ((y - 4 : ℤ) : ℝ) from by push_cast; ring,
        round_add_int, round_4sqrt2]
      omega
  have hc1 : transformCorner 45 (x - 4) (y - 4) (x + 8 - 1, y) = (x + 1, y + 7) := by
    simp only [transformCorner, rotatePoint, cos_deg45, sin_deg45, Prod.mk.injEq]
    refine ⟨?_, ?_⟩
    · rw [show (((x + 8 - 1 : ℤ) : ℝ) - ((x - 4 : ℤ) : ℝ)) * (Real.sqrt 2 / 2) -
          ((y : ℝ) - ((y - 4 : ℤ) : ℝ)) * (Real.sqrt 2 / 2) + ((x - 4 : ℤ) : ℝ)
          = (7/2 : ℝ) * Real.sqrt 2 + ((x - 4 : ℤ) : ℝ) from by push_cast; ring,
        round_add_int, round_7h]
      omega
    · rw [show (((x + 8 - 1 : ℤ) : ℝ) - ((x - 4 : ℤ) : ℝ)) * (Real.sqrt 2 / 2) +
          ((y : ℝ) - ((y - 4 : ℤ) : ℝ)) * (Real.sqrt 2 / 2) + ((y - 4 : ℤ) : ℝ)
          = (15/2 : ℝ) * Real.sqrt 2 + ((y - 4 : ℤ) : ℝ) from by push_cast; ring,
        round_add_int, round_15h]
      omega
  have hc2 : transformCorner 45 (x - 4) (y - 4) (x + 8 - 1, y + 8 - 1) =
      (x - 4, y + 12) := by
    simp only [transformCorner, rotatePoint, cos_deg45, sin_deg45, Prod.mk.injEq]
    refine ⟨?_, ?_⟩
    · rw [show (((x + 8 - 1 : ℤ) : ℝ) - ((x - 4 : ℤ) : ℝ)) * (Real.sqrt 2 / 2) -
          (((y + 8 - 1 : ℤ) : ℝ) - ((y - 4 : ℤ) : ℝ)) * (Real.sqrt 2 / 2) + ((x - 4 : ℤ) : ℝ)
          = (0 : ℝ) + ((x - 4 : ℤ) : ℝ) from by push_cast; ring,
        round_add_int, round_zero]
      omega
    · rw [show (((x + 8 - 1 : ℤ) : ℝ) - ((x - 4 : ℤ) : ℝ)) * (Real.sqrt 2 / 2) +
          (((y + 8 - 1 : ℤ) : ℝ) - ((y - 4 : ℤ) : ℝ)) * (Real.sqrt 2 / 2) + ((y - 4 : ℤ) : ℝ)
          = (11 : ℝ) * Real.sqrt 2 + ((y - 4 : ℤ) : ℝ) from by push_cast; ring,
        round_add_int, round_11sqrt2]
      omega
  have hc3 : transformCorner 45 (x - 4) (y - 4) (x, y + 8 - 1) = (x - 9, y + 7) := by
    simp only [transformCorner, rotatePoint, cos_deg45, sin_deg45, Prod.mk.injEq]
    refine ⟨?_, ?_⟩
    · rw [show ((x : ℝ) - ((x - 4 : ℤ) : ℝ)) * (Real.sqrt 2 / 2) -
          (((y + 8 - 1 : ℤ) : ℝ) - ((y - 4 : ℤ) : ℝ)) * (Real.sqrt 2 / 2) + ((x - 4 : ℤ) : ℝ)
          = (-(7/2) : ℝ) * Real.sqrt 2 + ((x - 4 : ℤ) : ℝ) from by push_cast; ring,
        round_add_int, round_neg7h]
      omega
    · rw [show ((x : ℝ) - ((x - 4 : ℤ) : ℝ)) * (Real.sqrt 2 / 2) +
          (((y + 8 - 1 : ℤ) : ℝ) - ((y - 4 : ℤ) : ℝ)) * (Real.sqrt 2 / 2) + ((y - 4 : ℤ) : ℝ)
          = (15/2 : ℝ) * Real.sqrt 2 + ((y - 4 : ℤ) : ℝ) from by push_cast; ring,
        round_add_int, round_15h]
      omega
  simp only [rotationBoundRect, fmod45, hdiv]
  rw [hc0, hc1, hc2, hc3]
  simp only [boundSeed, boundAdd, Rect.mk.injEq]
  refine ⟨?_, ?_, ?_, ?_⟩ <;> omega

/-- C7 counterexample: an 8 by 8 square picture rotated by 45 degrees
yields a bounding rectangle of side 11, while ceil(8 * sqrt 2) = 12, so
the claimed identity fails for side 8. -/
theorem rot45Side8IsNotCeil :
    rotationBitmapSize 45 0 0 8 8 = (11, 11) ∧
    ⌈(8 : ℝ) * Real.sqrt 2⌉ = 12 := by
  refine ⟨?_, ceil_8sqrt2⟩
  unfold rotationBitmapSize
  rw [rotBound45_8]
  decide

/-- C7 amended: for the specification's own 16 by 16 example the identity
holds at every position - SetRotation(45) yields a destination bounding
rectangle (and allocated bitmap) of side 23 = ceil(16 * sqrt 2) - but it
does not hold for every square side (an 8 by 8 picture yields side 11,
not ceil(8 * sqrt 2) = 12). -/
theorem rot45Side16IsCeil :
    ∀ x y : ℤ, rotationBitmapSize 45 x y 16 16 = (23, 23) ∧
      (23 : ℤ) = ⌈(16 : ℝ) * Real.sqrt 2⌉ := by
  intro x y
  refine ⟨?_, by rw [ceil_16sqrt2]⟩
  unfold rotationBitmapSize
  rw [rotBound45_16]
  simp only [Prod.mk.injEq]
  refine ⟨by ring, by ring⟩

/-- C5: TLN_SetSpriteRotation destroys the previous rotated bitmap and
overwrites dstrect before allocating the new bitmap, and never checks
the allocation result.  On a failed allocation on a configured 16 by 16
sprite the copy loop writes through the null bitmap - a crash, not the
claimed clean failure return - and by that point the prior rotated
bitmap has already been destroyed and dstrect already mutated, so the
sprite is not left in its pre-rotation state and partial mutation has
occurred, contradicting the claimed abort semantics. -/
theorem rotationAllocFailureBreaksSprite :
    setSpriteRotationModel 0 false exC5prior = Except.error exC5err ∧
    exC5prior.rotation_bitmap ≠ none ∧
    exC5err.rotation_bitmap = none ∧
    exC5err.dstrect ≠ exC5prior.dstrect := by
  have h1 : rotationBoundRect 0 exC5prior.x exC5prior.y
      exC5prior.info.w exC5prior.info.h = ⟨0, 0, 15, 15⟩ := rotBound0_ex
  refine ⟨?_, by decide, rfl, by decide⟩
  simp only [setSpriteRotationModel, h1]
  rfl

end Tilengine
